import Mathlib

/-!
Verification development for the Clavix intelligence subsystem
(`src/core/intelligence`): the universal optimizer, its escalation scoring,
PRD answer validation, and the concrete text-transformation patterns
(ConversationSummarizer, RequirementPrioritizer, UserPersonaEnricher,
ImplicitRequirementExtractor, TopicCoherenceAnalyzer).

The TypeScript sources are embedded shallowly: strings are `String`,
JS numbers holding 0-100 integer scores are `Nat`, a pattern `apply`
that may throw is a function into `Except`.  Collaborators whose code is
not part of the repository snapshot (IntentDetector.analyze,
QualityAssessor.assess/assessQuality, PatternLibrary.selectPatterns, and
the BasePattern helpers `hasSection` / `extractSentences`) are taken as
function parameters, so every theorem below holds for all implementations
of them.
-/

set_option autoImplicit false

namespace Clavix

/-! ### Data model (`src/core/intelligence/types.ts` is not in the snapshot;
the shapes below carry exactly the fields the embedded code reads).
`PromptIntent` is modelled as `String`: `optimize` installs a caller-supplied
intent override through an unchecked TypeScript cast, so at runtime any
string can occupy the field. -/

structure PromptCharacteristics where
  isOpenEnded : Bool
  needsStructure : Bool
deriving DecidableEq, Repr

structure IntentAnalysis where
  primaryIntent : String
  confidence : Nat
  characteristics : PromptCharacteristics
deriving DecidableEq, Repr

/-- The six quality dimensions plus the derived overall score; the field for
the `structure` dimension is called `structureScore` because `structure` is a
Lean keyword. -/
structure QualityScore where
  clarity : Nat
  efficiency : Nat
  structureScore : Nat
  completeness : Nat
  actionability : Nat
  specificity : Nat
  overall : Nat
deriving DecidableEq, Repr

inductive Impact
  | low
  | medium
  | high
deriving DecidableEq, Repr

structure Improvement where
  dimension : String
  description : String
  impact : Impact
deriving DecidableEq, Repr

structure PatternResult where
  enhancedPrompt : String
  improvement : Improvement
  applied : Bool
deriving DecidableEq, Repr

structure PatternContext where
  intent : IntentAnalysis
  mode : String
  originalPrompt : String
  phase : Option String
  documentType : Option String
  questionId : Option String
deriving DecidableEq, Repr

/-- A registered pattern as the optimizer loop sees it: `apply` returns
`Except.error` exactly when the TypeScript method throws. -/
structure Pattern where
  id : String
  name : String
  description : String
  apply : String → PatternContext → Except String PatternResult

structure PatternSummary where
  name : String
  description : String
  impact : Impact
deriving DecidableEq, Repr

structure OptimizationResult where
  original : String
  enhanced : String
  intent : IntentAnalysis
  quality : QualityScore
  improvements : List Improvement
  appliedPatterns : List PatternSummary
  mode : String
  processingTimeMs : Nat
deriving DecidableEq, Repr

structure EscalationReason where
  factor : String
  contribution : Nat
  description : String
deriving DecidableEq, Repr

structure EscalationAnalysis where
  shouldEscalate : Bool
  escalationScore : Nat
  escalationConfidence : String
  reasons : List EscalationReason
  deepModeValue : String
deriving DecidableEq, Repr

structure ContextOverride where
  phase : Option String
  documentType : Option String
  questionId : Option String
  intent : Option String
deriving DecidableEq, Repr

/-! ### String utilities mirroring the JavaScript string primitives used by
the patterns (ASCII-level semantics of `\s`, `.`, `toLowerCase`, `trim`,
`includes`). -/

/-- JS whitespace (`\s`), restricted to the ASCII range. -/
def isWsChar (c : Char) : Bool :=
  c = ' ' || c = '\t' || c = '\n' || c = '\r' || c = '\x0b' || c = '\x0c'

/-- JS line terminators, which `.` in a RegExp never matches. -/
def isLineTermChar (c : Char) : Bool :=
  c = '\n' || c = '\r' || c = '\u2028' || c = '\u2029'

def notLineTerm (c : Char) : Bool := !isLineTermChar c

/-- The character class `[A-Za-z0-9\s]` of the feature-parity regex. -/
def isAlnumOrWsChar (c : Char) : Bool :=
  ('A' ≤ c && c ≤ 'Z') || ('a' ≤ c && c ≤ 'z') || ('0' ≤ c && c ≤ '9') || isWsChar c

/-- The character class `[^.!?]` of the always/never business-rule regex. -/
def notSentencePunct (c : Char) : Bool :=
  !(c = '.' || c = '!' || c = '?')

def startsWithList : List Char → List Char → Bool
  | [], _ => true
  | _ :: _, [] => false
  | p :: ps, c :: cs => p = c && startsWithList ps cs

/-- Substring test on character lists (JS `String.prototype.includes`). -/
def hasSubList (pat : List Char) : List Char → Bool
  | [] => pat.isEmpty
  | c :: cs => startsWithList pat (c :: cs) || hasSubList pat cs

/-- JS `s.includes(sub)`. -/
def containsSub (s sub : String) : Bool :=
  hasSubList sub.toList s.toList

/-- JS `String.prototype.trim` on the character list. -/
def trimList (cs : List Char) : List Char :=
  ((cs.dropWhile isWsChar).reverse.dropWhile isWsChar).reverse

def trimJS (s : String) : String :=
  String.mk (trimList s.toList)

/-- JS `String.prototype.toLowerCase` (ASCII case folding, as the embedded
keyword tables are all ASCII); spelled out over the character list so that
it evaluates inside the kernel. -/
def toLowerJS (s : String) : String := String.mk (s.toList.map Char.toLower)

/-! ### A small matching engine for the RegExps used by the patterns.

Every extraction regex in the sources has the shape
`(?:lit1|lit2|...)` followed by one of the tails
`\s+(.+)`, `\s*(.+)`, `\s+(?:to\s+)?(.+)`, `\s+([A-Za-z0-9\s]+)` or
`\s+([^.!?]+)`, with the `i` flag and, for `matchAll`, the `g` flag.
The engine below reproduces the JS semantics for exactly these shapes:
leftmost match, ordered alternation, greedy quantifiers with backtracking
from `\s+`/`\s*` into the final one-or-more capture group, and (for the
global scans) resumption after the end of each non-overlapping match. -/

/-- Case-insensitive literal match; returns the remaining input. -/
def matchLitCI : List Char → List Char → Option (List Char)
  | [], cs => some cs
  | _ :: _, [] => none
  | l :: ls, c :: cs => if l.toLower = c.toLower then matchLitCI ls cs else none

/-- A final greedy one-or-more capture group over a character class:
requires at least one class character here and captures the maximal run.
Returns (capture, rest-of-input after the match). -/
def classPlusAt (p : Char → Bool) (cs : List Char) : Option (List Char × List Char) :=
  match cs with
  | [] => none
  | c :: _ => if p c then some (cs.takeWhile p, cs.dropWhile p) else none

/-- Backtracking for a greedy `\s+` (or `\s*` with an extra k = 0 attempt)
whose whitespace run has length `k`: try consuming `k` characters first,
then `k-1`, ..., down to `1`, handing the remainder to `tail`. -/
def tryDrops (tail : List Char → Option (List Char × List Char)) (cs : List Char) :
    Nat → Option (List Char × List Char)
  | 0 => none
  | Nat.succ k =>
    match tail (cs.drop (Nat.succ k)) with
    | some r => some r
    | none => tryDrops tail cs k

/-- `\s+` then a final class capture, with greedy backtracking. -/
def wsThenClass (p : Char → Bool) (cs : List Char) : Option (List Char × List Char) :=
  tryDrops (classPlusAt p) cs (cs.takeWhile isWsChar).length

/-- `\s*` then a final class capture: like `wsThenClass` plus the
zero-whitespace attempt. -/
def wsStarThenClass (p : Char → Bool) (cs : List Char) : Option (List Char × List Char) :=
  match tryDrops (classPlusAt p) cs (cs.takeWhile isWsChar).length with
  | some r => some r
  | none => classPlusAt p cs

/-- The tail `(?:to\s+)?(.+)` at a fixed position: the optional group is
tried greedily first (with its own inner `\s+` backtracking), then skipped. -/
def optToThenDot (cs : List Char) : Option (List Char × List Char) :=
  match matchLitCI ['t', 'o'] cs with
  | some rest =>
    match wsThenClass notLineTerm rest with
    | some r => some r
    | none => classPlusAt notLineTerm cs
  | none => classPlusAt notLineTerm cs

/-- The five tail shapes occurring after the literal alternation. -/
inductive TailKind
  | wsDot
  | wsStarDot
  | wsOptToDot
  | wsAlnumWs
  | wsNotSentencePunct
deriving DecidableEq, Repr

def runTailKind : TailKind → List Char → Option (List Char × List Char)
  | TailKind.wsDot => wsThenClass notLineTerm
  | TailKind.wsStarDot => wsStarThenClass notLineTerm
  | TailKind.wsOptToDot => fun cs => tryDrops optToThenDot cs (cs.takeWhile isWsChar).length
  | TailKind.wsAlnumWs => wsThenClass isAlnumOrWsChar
  | TailKind.wsNotSentencePunct => wsThenClass notSentencePunct

/-- One of the source regexes: an ordered alternation of case-insensitive
literals followed by a tail shape. -/
structure PhrasePattern where
  alts : List String
  tk : TailKind

/-- Ordered alternation at a fixed position: the first alternative whose
literal matches *and* whose tail succeeds wins (JS backtracks into later
alternatives when the tail fails). -/
def tryAltsAt (alts : List (List Char)) (tail : List Char → Option (List Char × List Char))
    (cs : List Char) : Option (List Char × List Char) :=
  match alts with
  | [] => none
  | a :: rest =>
    match matchLitCI a cs with
    | some afterLit =>
      match tail afterLit with
      | some r => some r
      | none => tryAltsAt rest tail cs
    | none => tryAltsAt rest tail cs

def tryPatternAt (pp : PhrasePattern) (cs : List Char) : Option (List Char × List Char) :=
  tryAltsAt (pp.alts.map String.toList) (runTailKind pp.tk) cs

/-- All captures of a global `matchAll` scan: leftmost matches, resuming
after the end of each match.  The fuel starts at `length + 1`; every step
consumes at least one character, so it never runs out. -/
def scanAllAux (pp : PhrasePattern) : Nat → List Char → List String
  | 0, _ => []
  | _ + 1, [] => []
  | fuel + 1, c :: cs =>
    match tryPatternAt pp (c :: cs) with
    | some (cap, rest) => String.mk cap :: scanAllAux pp fuel rest
    | none => scanAllAux pp fuel cs

/-- JS `[...prompt.matchAll(re)]`, keeping capture group 1 of each match. -/
def allCaptures (pp : PhrasePattern) (s : String) : List String :=
  scanAllAux pp (s.toList.length + 1) s.toList

def firstCaptureAux (pp : PhrasePattern) : List Char → Option String
  | [] => none
  | c :: cs =>
    match tryPatternAt pp (c :: cs) with
    | some (cap, _) => some (String.mk cap)
    | none => firstCaptureAux pp cs

/-- JS `sentence.match(re)` (non-global): capture group 1 of the first
match, if any. -/
def firstCaptureP (pp : PhrasePattern) (s : String) : Option String :=
  firstCaptureAux pp s.toList

/-! ### `BasePattern.cleanRequirement` (conversation-summarizer.ts):
trim, strip trailing `[.!?,;:]+`, collapse `\s+` to single spaces,
truncate to 200 characters. -/

def isCleanPunct (c : Char) : Bool :=
  c = '.' || c = '!' || c = '?' || c = ',' || c = ';' || c = ':'

/-- `replace(/[.!?,;:]+$/, '')`: remove a maximal trailing punctuation run. -/
def stripTrailingPunct (cs : List Char) : List Char :=
  (cs.reverse.dropWhile isCleanPunct).reverse

/-- `replace(/\s+/g, ' ')`: each maximal whitespace run becomes one space.
The flag records whether the previous character was whitespace. -/
def collapseWsAux : Bool → List Char → List Char
  | _, [] => []
  | prevWs, c :: cs =>
    if isWsChar c then
      if prevWs then collapseWsAux true cs else ' ' :: collapseWsAux true cs
    else c :: collapseWsAux false cs

def collapseWs (cs : List Char) : List Char := collapseWsAux false cs

def cleanRequirement (text : String) : String :=
  String.mk ((collapseWs (stripTrailingPunct (trimList text.toList))).take 200)

/-- The accumulation step shared by the summarizer's extractors:
`if (x && !list.includes(x)) list.push(x)` applied to a cleaned capture. -/
def pushClean (acc : List String) (c : String) : List String :=
  let r := cleanRequirement c
  if r ≠ "" ∧ r ∉ acc then acc ++ [r] else acc

/-- JS `[...new Set(xs)]`: deduplicate keeping first occurrences. -/
def dedupFirst (l : List String) : List String :=
  l.foldl (fun acc x => if x ∈ acc then acc else acc ++ [x]) []

/-! ### ConversationSummarizer (patterns/conversation-summarizer.ts).
`extractSentences` lives in the BasePattern base class, which is not in the
snapshot; it is passed in as the parameter `es` throughout. -/

def structureIndicators : List String :=
  ["##", "###", "**Requirements:**", "**Features:**", "- [ ]", "1.", "2.", "3."]

def isAlreadyStructured (prompt : String) : Bool :=
  3 ≤ (structureIndicators.filter (fun ind => containsSub prompt ind)).length

def conversationalMarkers : List String :=
  ["i want", "i need", "we need", "should be able to", "would like",
   "thinking about", "maybe we could", "what if", "how about", "let me",
   "let\x27s", "also", "and then", "basically", "so basically"]

def isConversationalContent (es : String → List String) (prompt : String) : Bool :=
  let lowerPrompt := toLowerJS prompt
  let markerMatches := conversationalMarkers.filter (fun m => containsSub lowerPrompt m)
  let sentences := es prompt
  let hasBulletPoints := containsSub prompt "- " || containsSub prompt "* "
  2 ≤ markerMatches.length || (3 < sentences.length && !hasBulletPoints)

def requirementPatterns : List PhrasePattern :=
  [⟨["need", "want", "should", "must", "require"], TailKind.wsOptToDot⟩,
   ⟨["should be able to", "needs to"], TailKind.wsDot⟩,
   ⟨["feature:", "functionality:"], TailKind.wsStarDot⟩]

def extractRequirements (es : String → List String) (prompt : String) : List String :=
  (((es prompt).foldl
      (fun acc sentence =>
        requirementPatterns.foldl
          (fun acc pat =>
            match firstCaptureP pat sentence with
            | some c => pushClean acc c
            | none => acc)
          acc)
      []).take 10)

def constraintPatterns : List PhrasePattern :=
  [⟨["can\x27t", "cannot", "shouldn\x27t", "must not"], TailKind.wsDot⟩,
   ⟨["limited to", "restricted to", "only"], TailKind.wsDot⟩,
   ⟨["within:", "budget:", "deadline:", "timeline:"], TailKind.wsStarDot⟩,
   ⟨["no more than", "at most", "maximum"], TailKind.wsDot⟩]

/-- The regex-driven phase of `extractConstraints`, before the keyword-driven
hardcoded constraints are appended. -/
def constraintMatches (prompt : String) : List String :=
  constraintPatterns.foldl
    (fun acc pat => (allCaptures pat prompt).foldl pushClean acc)
    []

def extractConstraints (prompt : String) : List String :=
  let constraints := constraintMatches prompt
  let lowerPrompt := toLowerJS prompt
  let constraints :=
    if containsSub lowerPrompt "performance" then
      constraints ++ ["Performance requirements to be defined"] else constraints
  let constraints :=
    if containsSub lowerPrompt "security" then
      constraints ++ ["Security requirements to be defined"] else constraints
  let constraints :=
    if containsSub lowerPrompt "mobile" && containsSub lowerPrompt "desktop" then
      constraints ++ ["Must work on both mobile and desktop"] else constraints
  constraints.take 5

def goalPatterns : List PhrasePattern :=
  [⟨["goal is to", "aim to", "objective is to"], TailKind.wsDot⟩,
   ⟨["trying to", "looking to", "hoping to"], TailKind.wsDot⟩,
   ⟨["so that", "in order to"], TailKind.wsDot⟩]

def extractGoals (prompt : String) : List String :=
  ((goalPatterns.foldl
      (fun acc pat => (allCaptures pat prompt).foldl pushClean acc)
      []).take 3)

def extractAndStructure (es : String → List String) (prompt : String) : String :=
  let requirements := extractRequirements es prompt
  let constraints := extractConstraints prompt
  let goals := extractGoals prompt
  let structured := "### Extracted Requirements\n\n"
  let structured :=
    if 0 < goals.length then
      structured ++ "**Goals:**\n" ++
        String.intercalate "\n" (goals.map (fun g => "- " ++ g)) ++ "\n\n"
    else structured
  let structured :=
    if 0 < requirements.length then
      structured ++ "**Requirements:**\n" ++
        String.intercalate "\n" (requirements.map (fun r => "- " ++ r)) ++ "\n\n"
    else structured
  let structured :=
    if 0 < constraints.length then
      structured ++ "**Constraints:**\n" ++
        String.intercalate "\n" (constraints.map (fun c => "- " ++ c)) ++ "\n\n"
    else structured
  structured ++ ("---\n\n**Original Context:**\n" ++ prompt)

def applyConversationSummarizer (es : String → List String) (prompt : String) : PatternResult :=
  if isAlreadyStructured prompt then
    { enhancedPrompt := prompt,
      improvement := ⟨"structure", "Content already well-structured", Impact.low⟩,
      applied := false }
  else if !(isConversationalContent es prompt) then
    { enhancedPrompt := prompt,
      improvement := ⟨"structure", "Not conversational content", Impact.low⟩,
      applied := false }
  else
    { enhancedPrompt := extractAndStructure es prompt,
      improvement := ⟨"structure", "Extracted structured requirements from conversation", Impact.high⟩,
      applied := true }

/-! ### RequirementPrioritizer (second class in conversation-summarizer.ts).
`hasSection` lives in the BasePattern base class (not in the snapshot) and is
passed in as `hs`; `extractFeatureSection` only chooses which constant
template is appended, and is passed in as `efs` (its lazy/lookahead regex is
not needed by any property below). -/

def featureKeywordsRP : List String :=
  ["feature", "requirement", "functionality", "capability", "should", "must",
   "need", "want", "implement"]

def priorityKeywords : List String :=
  ["must-have", "must have", "nice-to-have", "nice to have", "p0", "p1", "p2",
   "priority:", "mvp", "phase 1", "phase 2", "critical", "optional"]

def hasFeatureContentRP (hs : String → List String → Bool) (prompt : String) : Bool :=
  hs prompt featureKeywordsRP

def hasPrioritization (hs : String → List String → Bool) (prompt : String) : Bool :=
  hs prompt priorityKeywords

def addPrioritization (efs : String → Option String) (prompt : String) : String :=
  match efs prompt with
  | none =>
    prompt ++
      ("\n\n### Requirement Priorities\n" ++
       "**Must-Have (MVP):**\n- [Core features required for launch]\n\n" ++
       "**Nice-to-Have (Post-MVP):**\n- [Features to add after initial release]")
  | some _ =>
    prompt ++
      ("\n\n> **Priority Framework:** Consider categorizing features as:\n" ++
       "> - **Must-Have (P0):** Required for MVP, blocking issues\n" ++
       "> - **Should-Have (P1):** Important but not blocking\n" ++
       "> - **Nice-to-Have (P2):** Enhancements for future iterations")

def applyRequirementPrioritizer (hs : String → List String → Bool)
    (efs : String → Option String) (prompt : String) : PatternResult :=
  if !(hasFeatureContentRP hs prompt) then
    { enhancedPrompt := prompt,
      improvement := ⟨"structure", "No feature content to prioritize", Impact.low⟩,
      applied := false }
  else if hasPrioritization hs prompt then
    { enhancedPrompt := prompt,
      improvement := ⟨"structure", "Requirements already prioritized", Impact.low⟩,
      applied := false }
  else
    { enhancedPrompt := addPrioritization efs prompt,
      improvement := ⟨"structure", "Added requirement prioritization (must-have vs nice-to-have)", Impact.high⟩,
      applied := true }

/-! ### UserPersonaEnricher (patterns/user-persona-enricher.ts).
`hasSection` is the BasePattern helper, passed in as `hs`. -/

def userKeywords : List String :=
  ["user persona", "target user", "end user", "user profile", "audience",
   "stakeholder", "as a user", "users can", "users will", "for users",
   "customer", "developer", "admin", "target audience"]

def featureKeywordsUPE : List String :=
  ["feature", "build", "create", "implement", "functionality", "should",
   "must", "requirement"]

def hasUserContext (hs : String → List String → Bool) (prompt : String) : Bool :=
  hs prompt userKeywords

def needsUserContext (hs : String → List String → Bool) (prompt : String) : Bool :=
  hs prompt featureKeywordsUPE

def inferUserType (prompt : String) : String :=
  let lowerPrompt := toLowerJS prompt
  if containsSub lowerPrompt "api" || containsSub lowerPrompt "sdk" ||
      containsSub lowerPrompt "library" then
    "Developers integrating with the system"
  else if containsSub lowerPrompt "admin" || containsSub lowerPrompt "manage" ||
      containsSub lowerPrompt "dashboard" then
    "Administrators managing the system"
  else if containsSub lowerPrompt "e-commerce" || containsSub lowerPrompt "shop" ||
      containsSub lowerPrompt "buy" then
    "Customers making purchases"
  else if containsSub lowerPrompt "content" || containsSub lowerPrompt "blog" ||
      containsSub lowerPrompt "cms" then
    "Content creators and editors"
  else if containsSub lowerPrompt "mobile" || containsSub lowerPrompt "app" then
    "Mobile app users"
  else
    "[Define primary user type]"

def addUserPersona (prompt : String) : String :=
  prompt ++
    ("\n\n### Target Users\n" ++
     "**Primary User:** " ++ inferUserType prompt ++ "\n" ++
     "- Goals: [What they want to achieve]\n" ++
     "- Pain Points: [Current frustrations]\n" ++
     "- Context: [When and how they\x27ll use this]")

def applyUserPersonaEnricher (hs : String → List String → Bool) (prompt : String) :
    PatternResult :=
  if hasUserContext hs prompt then
    { enhancedPrompt := prompt,
      improvement := ⟨"completeness", "User context already present", Impact.low⟩,
      applied := false }
  else if !(needsUserContext hs prompt) then
    { enhancedPrompt := prompt,
      improvement := ⟨"completeness", "Content does not require user persona", Impact.low⟩,
      applied := false }
  else
    { enhancedPrompt := addUserPersona prompt,
      improvement := ⟨"completeness", "Added user persona context (who will use this)", Impact.medium⟩,
      applied := true }

/-! ### ImplicitRequirementExtractor (patterns/implicit-requirement-extractor.ts). -/

def likePattern : PhrasePattern :=
  ⟨["like", "similar to", "same as"], TailKind.wsAlnumWs⟩

def alwaysNeverPattern : PhrasePattern :=
  ⟨["always", "never", "must always", "must never"], TailKind.wsNotSentencePunct⟩

def extractImplicitRequirements (prompt : String) : List String :=
  let lowerPrompt := toLowerJS prompt
  let implicitReqs : List String :=
    (allCaptures likePattern prompt).map
      (fun m => "Feature parity with \"" ++ trimJS m ++ "\" (implied)")
  let implicitReqs :=
    if containsSub lowerPrompt "mobile" then
      implicitReqs ++ ["Mobile-responsive design required"] else implicitReqs
  let implicitReqs :=
    if containsSub lowerPrompt "real-time" || containsSub lowerPrompt "realtime" then
      implicitReqs ++ ["Real-time updates infrastructure needed"] else implicitReqs
  let implicitReqs :=
    if containsSub lowerPrompt "scale" || containsSub lowerPrompt "thousands" ||
        containsSub lowerPrompt "millions" then
      implicitReqs ++ ["Scalability architecture required"] else implicitReqs
  let implicitReqs :=
    if containsSub lowerPrompt "secure" || containsSub lowerPrompt "security" then
      implicitReqs ++ ["Security audit and compliance requirements"] else implicitReqs
  let implicitReqs :=
    if containsSub lowerPrompt "fast" || containsSub lowerPrompt "quick" then
      implicitReqs ++ ["Performance optimization requirements"] else implicitReqs
  let implicitReqs :=
    if (containsSub lowerPrompt "user" || containsSub lowerPrompt "admin") &&
        !containsSub lowerPrompt "authentication" then
      implicitReqs ++ ["User authentication system (implied by user roles)"] else implicitReqs
  let implicitReqs :=
    if (containsSub lowerPrompt "save" || containsSub lowerPrompt "store" ||
        containsSub lowerPrompt "data") && !containsSub lowerPrompt "database" then
      implicitReqs ++ ["Data persistence/storage (implied by data operations)"] else implicitReqs
  let implicitReqs :=
    if containsSub lowerPrompt "easy" || containsSub lowerPrompt "simple" ||
        containsSub lowerPrompt "intuitive" then
      implicitReqs ++ ["User experience priority (simplicity mentioned)"] else implicitReqs
  let implicitReqs :=
    if containsSub lowerPrompt "notify" || containsSub lowerPrompt "alert" ||
        containsSub lowerPrompt "email" || containsSub lowerPrompt "notification" then
      implicitReqs ++ ["Notification system infrastructure"] else implicitReqs
  let implicitReqs :=
    if containsSub lowerPrompt "search" || containsSub lowerPrompt "find" then
      implicitReqs ++ ["Search functionality and indexing"] else implicitReqs
  let implicitReqs :=
    if containsSub lowerPrompt "report" || containsSub lowerPrompt "analytics" ||
        containsSub lowerPrompt "dashboard" then
      implicitReqs ++ ["Analytics and reporting infrastructure"] else implicitReqs
  let implicitReqs :=
    if containsSub lowerPrompt "integrate" || containsSub lowerPrompt "connect" ||
        containsSub lowerPrompt "sync" then
      implicitReqs ++ ["Integration APIs and webhooks"] else implicitReqs
  let implicitReqs :=
    implicitReqs ++
      (allCaptures alwaysNeverPattern prompt).map
        (fun m => "Business rule: \"" ++ trimJS m ++ "\" (implied constraint)")
  (dedupFirst implicitReqs).take 8

def addImplicitRequirements (prompt : String) (implicitReqs : List String) : String :=
  prompt ++
    ("\n\n### Implicit Requirements (Inferred)\n" ++
     "*The following requirements are implied by the discussion:*\n\n" ++
     String.intercalate "\n" (implicitReqs.map (fun r => "- " ++ r)) ++
     "\n\n> **Note:** Please verify these inferred requirements are accurate.")

def applyImplicitRequirementExtractor (prompt : String) : PatternResult :=
  let implicitReqs := extractImplicitRequirements prompt
  if implicitReqs.length = 0 then
    { enhancedPrompt := prompt,
      improvement := ⟨"completeness", "No implicit requirements detected", Impact.low⟩,
      applied := false }
  else
    { enhancedPrompt := addImplicitRequirements prompt implicitReqs,
      improvement := ⟨"completeness",
        "Surfaced " ++ toString implicitReqs.length ++ " implicit requirements", Impact.medium⟩,
      applied := true }

/-! ### TopicCoherenceAnalyzer (the unnamed pattern source file).
`extractSentences` is again the BasePattern helper, passed in as `es`. -/

def topicIndicators : List (String × List String) :=
  [("User Interface", ["ui", "interface", "design", "layout", "button", "form", "page", "screen"]),
   ("Backend/API", ["api", "backend", "server", "endpoint", "route", "controller"]),
   ("Database", ["database", "db", "schema", "table", "query", "migration"]),
   ("Authentication", ["auth", "login", "password", "session", "token", "permission"]),
   ("Performance", ["performance", "speed", "cache", "optimize", "latency"]),
   ("Testing", ["test", "spec", "coverage", "qa", "validation"]),
   ("Deployment", ["deploy", "ci/cd", "pipeline", "release", "environment"]),
   ("User Experience", ["ux", "usability", "accessibility", "user flow", "journey"]),
   ("Business Logic", ["business", "workflow", "process", "rule", "logic"]),
   ("Integration", ["integration", "third-party", "external", "webhook", "sync"])]

def detectTopics (prompt : String) : List String :=
  let lowerPrompt := toLowerJS prompt
  (topicIndicators.filter
    (fun ti => ti.2.any (fun kw => containsSub lowerPrompt kw))).map Prod.fst

def topicHeaderAlts : List String :=
  ["user interface", "backend", "database", "auth", "performance", "testing", "deploy"]

/-- One position of `/##\s*(user interface|backend|...)/i`: `##`, then the
greedy `\s*` (no alternative begins with whitespace, so only the maximal
whitespace run can be followed by a literal), then the alternation. -/
def topicHeaderTestAt (cs : List Char) : Bool :=
  match matchLitCI ['#', '#'] cs with
  | some rest =>
    topicHeaderAlts.any (fun a => (matchLitCI a.toList (rest.dropWhile isWsChar)).isSome)
  | none => false

def hasTopicHeader : List Char → Bool
  | [] => false
  | c :: cs => topicHeaderTestAt (c :: cs) || hasTopicHeader cs

def hasTopicOrganization (prompt : String) : Bool :=
  hasTopicHeader prompt.toList

def topicKeywords : List (String × List String) :=
  [("User Interface", ["ui", "interface", "design", "layout", "button", "form", "page", "screen", "component"]),
   ("Backend/API", ["api", "backend", "server", "endpoint", "route", "controller", "service"]),
   ("Database", ["database", "db", "schema", "table", "query", "migration", "model"]),
   ("Authentication", ["auth", "login", "password", "session", "token", "permission", "user"]),
   ("Performance", ["performance", "speed", "cache", "optimize", "latency", "fast", "slow"]),
   ("Testing", ["test", "spec", "coverage", "qa", "validation", "verify"]),
   ("Deployment", ["deploy", "ci/cd", "pipeline", "release", "environment", "production"]),
   ("User Experience", ["ux", "usability", "accessibility", "user flow", "journey", "experience"]),
   ("Business Logic", ["business", "workflow", "process", "rule", "logic", "requirement"]),
   ("Integration", ["integration", "third-party", "external", "webhook", "sync", "connect"])]

def extractTopicContent (es : String → List String) (prompt topic : String) : String :=
  let keywords :=
    (((topicKeywords.filter (fun p => p.1 = topic)).head?).map Prod.snd).getD []
  let sentences := es prompt
  let relevantSentences :=
    sentences.filter (fun sentence =>
      keywords.any (fun kw => containsSub (toLowerJS sentence) kw))
  if relevantSentences.length = 0 then
    "- Discussion related to " ++ topic
  else
    String.intercalate "\n" ((relevantSentences.take 3).map (fun s => "- " ++ trimJS s))

def organizeByTopic (es : String → List String) (prompt : String) (topics : List String) :
    String :=
  let organized := "### Topics Covered\n"
  let organized := organized ++ "This conversation touches on multiple areas:\n"
  let organized := organized ++
    String.intercalate "\n"
      (topics.enum.map (fun p => toString (p.1 + 1) ++ ". **" ++ p.2 ++ "**"))
  let organized := organized ++ "\n\n---\n\n"
  let organized := organized ++ "### Discussion by Topic\n\n"
  let organized := organized ++
    topics.foldl
      (fun acc topic =>
        let relevantContent := extractTopicContent es prompt topic
        if relevantContent ≠ "" then
          acc ++ "#### " ++ topic ++ "\n" ++ relevantContent ++ "\n\n"
        else acc)
      ""
  organized ++ ("---\n\n**Full Context:**\n" ++ prompt)

def applyTopicCoherenceAnalyzer (es : String → List String) (prompt : String) :
    PatternResult :=
  let topics := detectTopics prompt
  if topics.length ≤ 1 then
    { enhancedPrompt := prompt,
      improvement := ⟨"structure", "Single coherent topic detected", Impact.low⟩,
      applied := false }
  else if hasTopicOrganization prompt then
    { enhancedPrompt := prompt,
      improvement := ⟨"structure", "Topics already organized", Impact.low⟩,
      applied := false }
  else
    { enhancedPrompt := organizeByTopic es prompt topics,
      improvement := ⟨"structure",
        "Organized " ++ toString topics.length ++ " distinct topics for clarity", Impact.medium⟩,
      applied := true }

/-! ### UniversalOptimizer (universal-optimizer.ts).

The collaborators constructed in the optimizer's constructor are not in the
snapshot, so `optimize` is parameterized by
`detect`   — `IntentDetector.analyze`,
`sp`       — `PatternLibrary.selectPatterns`,
`spm`      — `PatternLibrary.selectPatternsForMode`,
`assess`   — `QualityAssessor.assess`,
and by the elapsed wall-clock milliseconds (`Date.now()` differences are
not modelled; the elapsed time is an input). -/

/-- `contextOverride?.intent` is truthy (a present, non-empty string): the
spread `{...intent, primaryIntent: contextOverride.intent as PromptIntent}`
replaces only `primaryIntent`, with no validation of the string. -/
def resolveIntent (detected : IntentAnalysis) (ov : Option ContextOverride) : IntentAnalysis :=
  match ov with
  | some o =>
    match o.intent with
    | some s => if s = "" then detected else { detected with primaryIntent := s }
    | none => detected
  | none => detected

def optCtx (detect : String → IntentAnalysis) (prompt mode : String)
    (ov : Option ContextOverride) : PatternContext :=
  { intent := resolveIntent (detect prompt) ov,
    mode := mode,
    originalPrompt := prompt,
    phase := ov.bind ContextOverride.phase,
    documentType := ov.bind ContextOverride.documentType,
    questionId := ov.bind ContextOverride.questionId }

/-- The running state of the sequential pattern-application loop. -/
structure LoopState where
  enhanced : String
  improvements : List Improvement
  appliedPatterns : List PatternSummary
deriving DecidableEq, Repr

/-- One iteration of the loop in `optimize`: a throwing `apply` is caught
(the state is unchanged), an inapplicable result is ignored, an applied
result updates the running enhanced text and both accumulators. -/
def applyStep (ctx : PatternContext) (st : LoopState) (p : Pattern) : LoopState :=
  match p.apply st.enhanced ctx with
  | Except.error _ => st
  | Except.ok r =>
    if r.applied then
      { enhanced := r.enhancedPrompt,
        improvements := st.improvements ++ [r.improvement],
        appliedPatterns := st.appliedPatterns ++ [⟨p.name, p.description, r.improvement.impact⟩] }
    else st

def runPatterns (ctx : PatternContext) (ps : List Pattern) (st : LoopState) : LoopState :=
  ps.foldl (applyStep ctx) st

def optimize (detect : String → IntentAnalysis)
    (sp : IntentAnalysis → String → List Pattern)
    (spm : String → IntentAnalysis → Option String → List Pattern)
    (assess : String → String → IntentAnalysis → QualityScore)
    (prompt mode : String) (ov : Option ContextOverride) (elapsedMs : Nat) :
    OptimizationResult :=
  let intent := resolveIntent (detect prompt) ov
  let patterns :=
    if mode = "prd" ∨ mode = "conversational" then
      spm mode intent (ov.bind ContextOverride.phase)
    else sp intent mode
  let st := runPatterns (optCtx detect prompt mode ov) patterns
    { enhanced := prompt, improvements := [], appliedPatterns := [] }
  { original := prompt,
    enhanced := st.enhanced,
    intent := intent,
    quality := assess prompt st.enhanced intent,
    improvements := st.improvements,
    appliedPatterns := st.appliedPatterns,
    mode := mode,
    processingTimeMs := elapsedMs }

/-! ### Escalation analysis (`analyzeEscalation`). -/

def generateDeepModeValue (result : OptimizationResult) (reasons : List EscalationReason) :
    String :=
  let hasLowQuality := reasons.any (fun r => r.factor == "low-quality")
  let hasLowCompleteness := reasons.any (fun r => r.factor == "missing-completeness")
  let hasHighAmbiguity := reasons.any (fun r => r.factor == "high-ambiguity")
  let hasLowSpecificity := reasons.any (fun r => r.factor == "low-specificity")
  let isPlanningIntent :=
    result.intent.primaryIntent == "planning" || result.intent.primaryIntent == "prd-generation"
  let benefits : List String := []
  let benefits := if isPlanningIntent then benefits ++ ["structured implementation plan"] else benefits
  let benefits :=
    if hasLowQuality || hasLowCompleteness then
      benefits ++ ["comprehensive requirements extraction"] else benefits
  let benefits :=
    if hasHighAmbiguity then benefits ++ ["alternative approaches and trade-offs"] else benefits
  let benefits :=
    if hasLowSpecificity then benefits ++ ["concrete examples and specifications"] else benefits
  let benefits :=
    if result.intent.primaryIntent == "migration" then
      benefits ++ ["migration checklist and risk assessment"] else benefits
  let benefits :=
    if result.intent.primaryIntent == "security-review" then
      benefits ++ ["security checklist and threat analysis"] else benefits
  let benefits := benefits ++ ["validation checklist"]
  if benefits.length = 0 then
    "Deep mode provides comprehensive analysis with alternative approaches."
  else
    "Deep mode would provide: " ++ String.intercalate ", " benefits ++ "."

/-- One `if (condition) { totalScore += c; reasons.push(...) }` block. -/
def escStep (c : Prop) [Decidable c] (rea : EscalationReason)
    (acc : List EscalationReason × Nat) : List EscalationReason × Nat :=
  if c then (acc.1 ++ [rea], acc.2 + rea.contribution) else acc

/-- `Math.round((60 - confidence) / 3)` for a confidence below 60:
`round(n/3) = ⌊(2n+3)/6⌋` (no exact halves arise). -/
def lowConfContribution (confidence : Nat) : Nat :=
  (2 * (60 - confidence) + 3) / 6

/-- `Math.round((65 - overall) / 2.6)` for an overall below 65:
`round(5m/13) = ⌊(10m+13)/26⌋` (no exact halves arise). -/
def lowQualityContribution (overall : Nat) : Nat :=
  (10 * (65 - overall) + 13) / 26

/-- `UniversalOptimizer.analyzeEscalation`, parameterized by
`aq = QualityAssessor.assessQuality`, which it calls on `result.original`
(never on the enhanced text). -/
def analyzeEscalation (aq : String → String → QualityScore)
    (result : OptimizationResult) : EscalationAnalysis :=
  let oq := aq result.original result.intent.primaryIntent
  let acc : List EscalationReason × Nat := ([], 0)
  let acc := escStep
    (result.intent.primaryIntent = "planning" ∨ result.intent.primaryIntent = "prd-generation")
    ⟨"intent-type", 30,
      result.intent.primaryIntent ++ " tasks benefit from comprehensive analysis"⟩ acc
  let acc := escStep (result.intent.confidence < 60)
    ⟨"low-confidence", lowConfContribution result.intent.confidence,
      "Intent detection confidence is low (" ++ toString result.intent.confidence ++ "%)"⟩ acc
  let acc := escStep (oq.overall < 65)
    ⟨"low-quality", lowQualityContribution oq.overall,
      "Original prompt quality is below threshold (" ++ toString oq.overall ++ "/100)"⟩ acc
  let acc := escStep (oq.completeness < 60)
    ⟨"missing-completeness", 15,
      "Missing required details (completeness: " ++ toString oq.completeness ++ "%)"⟩ acc
  let acc := escStep (oq.specificity < 60)
    ⟨"low-specificity", 15,
      "Prompt lacks concrete details (specificity: " ++ toString oq.specificity ++ "%)"⟩ acc
  let acc := escStep
    (result.intent.characteristics.isOpenEnded = true ∧
      result.intent.characteristics.needsStructure = true)
    ⟨"high-ambiguity", 20, "Open-ended request without clear structure"⟩ acc
  let acc := escStep (result.original.length < 50 ∧ oq.completeness < 70)
    ⟨"length-mismatch", 15, "Very short prompt with incomplete requirements"⟩ acc
  let acc := escStep
    (result.intent.primaryIntent = "migration" ∨ result.intent.primaryIntent = "security-review")
    ⟨"complex-intent", 20, result.intent.primaryIntent ++ " requires thorough analysis"⟩ acc
  { shouldEscalate := decide (45 ≤ acc.2),
    escalationScore := min acc.2 100,
    escalationConfidence :=
      if 75 ≤ acc.2 then "high" else if 60 ≤ acc.2 then "medium" else "low",
    reasons := acc.1,
    deepModeValue := generateDeepModeValue result acc.1 }

def shouldRecommendDeepMode (aq : String → String → QualityScore)
    (result : OptimizationResult) : Bool :=
  (analyzeEscalation aq result).shouldEscalate

/-! ### PRD answer validation (`validatePRDAnswer`,
`generateFriendlySuggestion`). -/

/-- The member names a JS object literal inherits from `Object.prototype`.
For these keys `suggestions[questionId]` returns the inherited member — a
function, or the prototype object itself for `__proto__` — which is truthy,
so the `|| suggestions.q5` fallback does not fire. -/
def objectPrototypeKeys : List String :=
  ["constructor", "hasOwnProperty", "isPrototypeOf", "propertyIsEnumerable",
   "toLocaleString", "toString", "valueOf", "__defineGetter__",
   "__defineSetter__", "__lookupGetter__", "__lookupSetter__", "__proto__"]

/-- The array value of `suggestions[questionId] || suggestions.q5` once the
lookup is known not to hit an inherited `Object.prototype` member: the own
row for q1..q5, else the lookup is `undefined` (falsy) and the `q5` row is
the fallback. -/
def suggestionsFor (questionId : String) : List String :=
  if questionId = "q1" then
    ["the problem you\x27re solving", "why this matters", "who benefits"]
  else if questionId = "q2" then
    ["specific features", "user actions", "key functionality"]
  else if questionId = "q3" then
    ["technologies", "frameworks", "constraints"]
  else if questionId = "q4" then
    ["what\x27s explicitly out of scope", "features to avoid", "limitations"]
  else
    ["additional context", "constraints", "timeline considerations"]

/-- `generateFriendlySuggestion`.  When `questionId` names an inherited
`Object.prototype` member, `questionSuggestions` is that truthy non-array
member: its index accesses `[0]`, `[Math.min(1, length - 1)]` and
`[Math.min(2, length - 1)]` (the indices land in -1, 0, 1, 2 or NaN for
every such member) all yield `undefined`, and the template literal renders
the result as `adding undefined would help` whatever the quality gaps are.
Otherwise the lookup (with q5 fallback) is a 3-element array and the two
sequential `if`s pick the gap phrase, the specificity check last. -/
def generateFriendlySuggestion (result : OptimizationResult) (questionId : String) : String :=
  if questionId ∈ objectPrototypeKeys then "adding undefined would help"
  else
    let questionSuggestions := suggestionsFor questionId
    let detail := questionSuggestions.getD 0 ""
    let detail :=
      if result.quality.completeness < 40 then
        questionSuggestions.getD (min 1 (questionSuggestions.length - 1)) ""
      else detail
    let detail :=
      if result.quality.specificity < 40 then
        questionSuggestions.getD (min 2 (questionSuggestions.length - 1)) ""
      else detail
    "adding " ++ detail ++ " would help"

structure PRDValidation where
  needsClarification : Bool
  suggestion : Option String
  quality : Nat
deriving DecidableEq, Repr

def validatePRDAnswer (detect : String → IntentAnalysis)
    (sp : IntentAnalysis → String → List Pattern)
    (spm : String → IntentAnalysis → Option String → List Pattern)
    (assess : String → String → IntentAnalysis → QualityScore)
    (answer questionId : String) (elapsedMs : Nat) : PRDValidation :=
  let result := optimize detect sp spm assess answer "prd"
    (some { phase := some "question-validation", documentType := none,
            questionId := some questionId, intent := some "prd-generation" }) elapsedMs
  if result.quality.overall < 50 then
    { needsClarification := true,
      suggestion := some (generateFriendlySuggestion result questionId),
      quality := result.quality.overall }
  else
    { needsClarification := false,
      suggestion := none,
      quality := result.quality.overall }

/-! ### Specification-side formulations (written from the spec / claim
wording, to be compared with the embedded source definitions above). -/

/-- The escalation factor table as the spec states it: the list of the
contributions of exactly the factors that fire. -/
def firedContributions (origLen : Nat) (intent : IntentAnalysis) (oq : QualityScore) :
    List Nat :=
  (if intent.primaryIntent = "planning" ∨ intent.primaryIntent = "prd-generation"
    then [30] else []) ++
  ((if intent.confidence < 60 then [lowConfContribution intent.confidence] else []) ++
  ((if oq.overall < 65 then [lowQualityContribution oq.overall] else []) ++
  ((if oq.completeness < 60 then [15] else []) ++
  ((if oq.specificity < 60 then [15] else []) ++
  ((if intent.characteristics.isOpenEnded = true ∧ intent.characteristics.needsStructure = true
      then [20] else []) ++
  ((if origLen < 50 ∧ oq.completeness < 70 then [15] else []) ++
  (if intent.primaryIntent = "migration" ∨ intent.primaryIntent = "security-review"
    then [20] else [])))))))

/-- The uncapped total of the fired factor contributions, in closed form. -/
def escTotalFn (origLen : Nat) (intent : IntentAnalysis) (oq : QualityScore) : Nat :=
  (if intent.primaryIntent = "planning" ∨ intent.primaryIntent = "prd-generation"
    then 30 else 0) +
  ((if intent.confidence < 60 then lowConfContribution intent.confidence else 0) +
  ((if oq.overall < 65 then lowQualityContribution oq.overall else 0) +
  ((if oq.completeness < 60 then 15 else 0) +
  ((if oq.specificity < 60 then 15 else 0) +
  ((if intent.characteristics.isOpenEnded = true ∧ intent.characteristics.needsStructure = true
      then 20 else 0) +
  ((if origLen < 50 ∧ oq.completeness < 70 then 15 else 0) +
  (if intent.primaryIntent = "migration" ∨ intent.primaryIntent = "security-review"
    then 20 else 0)))))))

/-- The reasons list of `analyzeEscalation` in closed form. -/
def escReasonsFn (origLen : Nat) (intent : IntentAnalysis) (oq : QualityScore) :
    List EscalationReason :=
  (if intent.primaryIntent = "planning" ∨ intent.primaryIntent = "prd-generation"
    then [⟨"intent-type", 30,
      intent.primaryIntent ++ " tasks benefit from comprehensive analysis"⟩] else []) ++
  ((if intent.confidence < 60
    then [⟨"low-confidence", lowConfContribution intent.confidence,
      "Intent detection confidence is low (" ++ toString intent.confidence ++ "%)"⟩] else []) ++
  ((if oq.overall < 65
    then [⟨"low-quality", lowQualityContribution oq.overall,
      "Original prompt quality is below threshold (" ++ toString oq.overall ++ "/100)"⟩] else []) ++
  ((if oq.completeness < 60
    then [⟨"missing-completeness", 15,
      "Missing required details (completeness: " ++ toString oq.completeness ++ "%)"⟩] else []) ++
  ((if oq.specificity < 60
    then [⟨"low-specificity", 15,
      "Prompt lacks concrete details (specificity: " ++ toString oq.specificity ++ "%)"⟩] else []) ++
  ((if intent.characteristics.isOpenEnded = true ∧ intent.characteristics.needsStructure = true
    then [⟨"high-ambiguity", 20, "Open-ended request without clear structure"⟩] else []) ++
  ((if origLen < 50 ∧ oq.completeness < 70
    then [⟨"length-mismatch", 15, "Very short prompt with incomplete requirements"⟩] else []) ++
  (if intent.primaryIntent = "migration" ∨ intent.primaryIntent = "security-review"
    then [⟨"complex-intent", 20, intent.primaryIntent ++ " requires thorough analysis"⟩]
    else [])))))))

/-- The confidence label thresholds as the claim states them. -/
def escConfidenceLabel (t : Nat) : String :=
  if 75 ≤ t then "high" else if 60 ≤ t then "medium" else "low"

/-- Modelled from the spec: the `PromptIntent` tags enumerated in the data
model section of the spec (`types.ts` is not in the snapshot). -/
def supportedIntents : List String :=
  ["code-generation", "planning", "refinement", "debugging", "documentation",
   "prd-generation", "summarization", "migration", "security-review"]

/-- An item produced by the summarizer's cleaning pipeline: the image of
`cleanRequirement`, and non-empty (the JS truthiness guard). -/
def Cleanish (x : String) : Prop :=
  (∃ raw, x = cleanRequirement raw) ∧ x ≠ ""

/-! ### Concrete instances used by witnesses and counterexamples. -/

/-- A trivial `extractSentences` implementation. -/
def esNil : String → List String := fun _ => []

def qualityAll (n : Nat) : QualityScore := ⟨n, n, n, n, n, n, n⟩

def detectStub : String → IntentAnalysis :=
  fun _ => ⟨"code-generation", 80, ⟨false, false⟩⟩

def assessLow : String → String → IntentAnalysis → QualityScore :=
  fun _ _ _ => qualityAll 30

def selNone : IntentAnalysis → String → List Pattern := fun _ _ => []

def selModeNone : String → IntentAnalysis → Option String → List Pattern := fun _ _ _ => []

/-- A pattern stub whose `apply` always throws. -/
def errPattern : Pattern :=
  ⟨"err-pattern", "ErrPattern", "always throws", fun _ _ => Except.error "boom"⟩

/-- A pattern stub that always applies and appends a marker. -/
def okPattern : Pattern :=
  ⟨"ok-pattern", "OkPattern", "appends a marker",
    fun s _ => Except.ok ⟨s ++ " [ok]", ⟨"clarity", "marker", Impact.low⟩, true⟩⟩

/-- A `hasSection` implementation that reports exactly the keyword lists
containing the word `feature`. -/
def hsFeatureOnly : String → List String → Bool :=
  fun _ kws => kws.contains "feature"

/-- A `hasSection` implementation that reports exactly the keyword lists
containing the word `build`. -/
def hsBuildOnly : String → List String → Bool :=
  fun _ kws => kws.contains "build"

/-- An `extractFeatureSection` implementation that never finds a section. -/
def efsNone : String → Option String := fun _ => none

/-- Conversational input yielding four distinct regex-extracted constraints. -/
def capCounterPrompt : String :=
  "i want x. i need y.\nwe can\x27t use java\nwe cannot use php\nwe shouldn\x27t use perl\nwe must not use cobol"

/-- Conversational input on which the regex-extracted constraint collides
with the keyword-triggered hardcoded `performance` constraint. -/
def dupConstraintPrompt : String :=
  "i want x. i need y. only Performance requirements to be defined."

/-- A `hasSection` implementation that never finds anything. -/
def hsNever : String → List String → Bool := fun _ _ => false

/-- A constant `assessQuality` collaborator. -/
def aqConst (q : QualityScore) : String → String → QualityScore := fun _ _ => q

/-- A fixed optimization result used to exercise `analyzeEscalation`. -/
def resultStub : OptimizationResult :=
  { original := "p", enhanced := "p",
    intent := ⟨"code-generation", 80, ⟨false, false⟩⟩,
    quality := qualityAll 50, improvements := [], appliedPatterns := [],
    mode := "fast", processingTimeMs := 0 }

/-! ## Theorems -/

theorem escStep_fst (c : Prop) [Decidable c] (rea : EscalationReason)
    (acc : List EscalationReason × Nat) :
    (escStep c rea acc).1 = acc.1 ++ (if c then [rea] else []) := by
  unfold escStep; split <;> simp

theorem escStep_snd (c : Prop) [Decidable c] (rea : EscalationReason)
    (acc : List EscalationReason × Nat) :
    (escStep c rea acc).2 = acc.2 + (if c then rea.contribution else 0) := by
  unfold escStep; split <;> simp

/-- C9: `optimize` is deterministic — two calls with identical prompt, mode
and context override (against the same stateless collaborators) return
identical `enhanced`, `quality` and `intent`; only the elapsed-time input,
which feeds `processingTimeMs` alone, may differ. -/
theorem optimize_deterministic (detect : String → IntentAnalysis)
    (sp : IntentAnalysis → String → List Pattern)
    (spm : String → IntentAnalysis → Option String → List Pattern)
    (assess : String → String → IntentAnalysis → QualityScore)
    (prompt mode : String) (ov : Option ContextOverride) (t₁ t₂ : Nat) :
    (optimize detect sp spm assess prompt mode ov t₁).enhanced
        = (optimize detect sp spm assess prompt mode ov t₂).enhanced
    ∧ (optimize detect sp spm assess prompt mode ov t₁).quality
        = (optimize detect sp spm assess prompt mode ov t₂).quality
    ∧ (optimize detect sp spm assess prompt mode ov t₁).intent
        = (optimize detect sp spm assess prompt mode ov t₂).intent :=
  ⟨rfl, rfl, rfl⟩

/-- C2: if the pattern at any position of the selected pattern list throws on
the enhanced text accumulated so far, `optimize` still returns a result equal
in every field to the run without that pattern: the exception is caught per
pattern, the running enhanced string keeps the value accumulated from the
previously applied patterns, the remaining patterns are still applied in
order, and nothing propagates to the caller (`optimize` is total). -/
theorem optimize_pattern_error_resilient (detect : String → IntentAnalysis)
    (assess : String → String → IntentAnalysis → QualityScore)
    (prompt mode : String) (ov : Option ContextOverride) (t : Nat)
    (ps₁ ps₂ : List Pattern) (p : Pattern) (e : String)
    (h : p.apply (runPatterns (optCtx detect prompt mode ov) ps₁
          { enhanced := prompt, improvements := [], appliedPatterns := [] }).enhanced
          (optCtx detect prompt mode ov) = Except.error e) :
    optimize detect (fun _ _ => ps₁ ++ p :: ps₂) (fun _ _ _ => ps₁ ++ p :: ps₂)
        assess prompt mode ov t
      = optimize detect (fun _ _ => ps₁ ++ ps₂) (fun _ _ _ => ps₁ ++ ps₂)
        assess prompt mode ov t := by
  simp only [runPatterns] at h
  have hgen : ∀ st : LoopState,
      p.apply st.enhanced (optCtx detect prompt mode ov) = Except.error e →
      applyStep (optCtx detect prompt mode ov) st p = st := by
    intro st hs
    unfold applyStep
    rw [hs]
  have hstep := hgen _ h
  simp only [optimize, runPatterns, ite_self, List.foldl_append, List.foldl_cons, hstep]

/-- C6 (amended): `optimize` adopts any non-empty `contextOverride.intent`
string as `primaryIntent` through an unchecked cast, keeping the detected
confidence and characteristics; the string is not validated, so an
unsupported tag is propagated into the result rather than being ignored. -/
theorem optimize_intent_override_adopted (detect : String → IntentAnalysis)
    (sp : IntentAnalysis → String → List Pattern)
    (spm : String → IntentAnalysis → Option String → List Pattern)
    (assess : String → String → IntentAnalysis → QualityScore)
    (prompt mode : String) (o : ContextOverride) (t : Nat) (s : String)
    (h1 : o.intent = some s) (h2 : s ≠ "") :
    (optimize detect sp spm assess prompt mode (some o) t).intent
      = { detect prompt with primaryIntent := s } := by
  simp only [optimize, resolveIntent, h1]
  simp [h2]

/-- C6 counterexample: with the override intent `"zz-not-an-intent"` — a tag
outside every supported `PromptIntent` — the result's `primaryIntent` is the
unsupported tag itself, not the detected intent the claim requires. -/
theorem optimize_intent_override_not_ignored :
    (optimize detectStub selNone selModeNone assessLow "Build a login page" "fast"
        (some { phase := none, documentType := none, questionId := none,
                intent := some "zz-not-an-intent" }) 0).intent.primaryIntent
      = "zz-not-an-intent"
    ∧ (detectStub "Build a login page").primaryIntent = "code-generation"
    ∧ "zz-not-an-intent" ≠ "code-generation"
    ∧ "zz-not-an-intent" ∉ supportedIntents :=
  ⟨rfl, rfl, by decide, by decide⟩

theorem optimize_intent_override_adopted_witness :
    ({ phase := none, documentType := none, questionId := none,
       intent := some "planning" } : ContextOverride).intent = some "planning"
    ∧ "planning" ≠ ""
    ∧ (optimize detectStub selNone selModeNone assessLow "x" "fast"
        (some { phase := none, documentType := none, questionId := none,
                intent := some "planning" }) 0).intent
      = { detectStub "x" with primaryIntent := "planning" } :=
  ⟨rfl, by decide,
    optimize_intent_override_adopted detectStub selNone selModeNone assessLow "x" "fast"
      { phase := none, documentType := none, questionId := none, intent := some "planning" }
      0 "planning" rfl (by decide)⟩

theorem optimize_pattern_error_resilient_witness :
    errPattern.apply (runPatterns (optCtx detectStub "hello" "fast" none) []
        { enhanced := "hello", improvements := [], appliedPatterns := [] }).enhanced
        (optCtx detectStub "hello" "fast" none) = Except.error "boom"
    ∧ optimize detectStub (fun _ _ => [] ++ errPattern :: [okPattern])
        (fun _ _ _ => [] ++ errPattern :: [okPattern]) assessLow "hello" "fast" none 0
      = optimize detectStub (fun _ _ => [] ++ [okPattern]) (fun _ _ _ => [] ++ [okPattern])
        assessLow "hello" "fast" none 0 :=
  ⟨rfl, optimize_pattern_error_resilient detectStub assessLow "hello" "fast" none 0
    [] [okPattern] errPattern "boom" rfl⟩

theorem suggestionsFor_length (questionId : String) :
    (suggestionsFor questionId).length = 3 := by
  unfold suggestionsFor
  split_ifs <;> rfl

/-- C3 (amended): `validatePRDAnswer` runs `optimize` in `prd` mode with the
`question-validation` phase and the intent forced to `prd-generation`;
`needsClarification` is true exactly when the resulting overall quality is
below 50, and in that case the suggestion prefers the specificity-gap phrase
(the question's third suggestion) if specificity < 40, else the
completeness-gap phrase (the second suggestion) if completeness < 40, else
the question's default first suggestion (the specificity check is applied
last in the source and therefore wins when both gaps are present); when the
overall quality is at least 50, no suggestion is produced.  For a question
id naming an inherited `Object.prototype` member the truthy inherited lookup
defeats the q5 fallback and the gap selection degenerates to the string
`adding undefined would help`. -/
theorem validatePRDAnswer_spec (detect : String → IntentAnalysis)
    (sp : IntentAnalysis → String → List Pattern)
    (spm : String → IntentAnalysis → Option String → List Pattern)
    (assess : String → String → IntentAnalysis → QualityScore)
    (answer questionId : String) (t : Nat) :
    validatePRDAnswer detect sp spm assess answer questionId t =
      (let r := optimize detect sp spm assess answer "prd"
          (some { phase := some "question-validation", documentType := none,
                  questionId := some questionId, intent := some "prd-generation" }) t
       if r.quality.overall < 50 then
         { needsClarification := true,
           suggestion := some ("adding " ++
             (if questionId ∈ objectPrototypeKeys then "undefined"
              else if r.quality.specificity < 40 then (suggestionsFor questionId).getD 2 ""
              else if r.quality.completeness < 40 then (suggestionsFor questionId).getD 1 ""
              else (suggestionsFor questionId).getD 0 "") ++ " would help"),
           quality := r.quality.overall }
       else
         { needsClarification := false, suggestion := none,
           quality := r.quality.overall }) := by
  unfold validatePRDAnswer generateFriendlySuggestion
  simp only [suggestionsFor_length]
  by_cases hp : questionId ∈ objectPrototypeKeys <;>
    by_cases hc :
      (optimize detect sp spm assess answer "prd"
        (some { phase := some "question-validation", documentType := none,
                questionId := some questionId, intent := some "prd-generation" })
        t).quality.completeness < 40 <;>
    by_cases hs :
      (optimize detect sp spm assess answer "prd"
        (some { phase := some "question-validation", documentType := none,
                questionId := some questionId, intent := some "prd-generation" })
        t).quality.specificity < 40 <;>
    simp [hp, hc, hs]

/-- C3 counterexample: on an answer whose assessed completeness and
specificity are both 30 (< 40) with overall 30 (< 50), the claim requires
the completeness-gap phrase — q1's second suggestion, "why this matters" —
but the source returns the specificity-gap phrase "who benefits" (the later
specificity check overwrites the completeness choice). -/
theorem validatePRDAnswer_both_gaps_counterexample :
    (optimize detectStub selNone selModeNone assessLow "idk" "prd"
        (some { phase := some "question-validation", documentType := none,
                questionId := some "q1", intent := some "prd-generation" })
        0).quality.completeness = 30
    ∧ (30 : Nat) < 40
    ∧ (validatePRDAnswer detectStub selNone selModeNone assessLow "idk" "q1" 0).suggestion
        = some "adding who benefits would help"
    ∧ (suggestionsFor "q1").getD 1 "" = "why this matters"
    ∧ some "adding who benefits would help" ≠ some "adding why this matters would help" :=
  ⟨rfl, by decide, rfl, rfl, by decide⟩

/-- C10 (amended): `validatePRDAnswer` never fails on a low-quality answer
with an unknown question id, but the q5 fallback only fires when the id is
genuinely absent from the object: for an id outside q1-q5 that is not a
member name inherited from `Object.prototype`, the lookup is `undefined`,
the `|| suggestions.q5` fallback fires and the suggestion is built from one
of q5's three phrases; for an id that names an inherited `Object.prototype`
member (`toString`, `valueOf`, `constructor`, ...), the truthy inherited
lookup defeats the fallback and the suggestion is the literal
`adding undefined would help`. -/
theorem validatePRDAnswer_unknown_question_fallback :
    (∀ (detect : String → IntentAnalysis)
      (sp : IntentAnalysis → String → List Pattern)
      (spm : String → IntentAnalysis → Option String → List Pattern)
      (assess : String → String → IntentAnalysis → QualityScore)
      (answer questionId : String) (t : Nat),
      questionId ∉ (["q1", "q2", "q3", "q4", "q5"] : List String) →
      questionId ∉ objectPrototypeKeys →
      (validatePRDAnswer detect sp spm assess answer questionId t).quality < 50 →
      (validatePRDAnswer detect sp spm assess answer questionId t).needsClarification = true
      ∧ ∃ detail,
          detail ∈ (["additional context", "constraints", "timeline considerations"] : List String)
          ∧ (validatePRDAnswer detect sp spm assess answer questionId t).suggestion
            = some ("adding " ++ detail ++ " would help"))
    ∧ (∀ (detect : String → IntentAnalysis)
      (sp : IntentAnalysis → String → List Pattern)
      (spm : String → IntentAnalysis → Option String → List Pattern)
      (assess : String → String → IntentAnalysis → QualityScore)
      (answer questionId : String) (t : Nat),
      questionId ∈ objectPrototypeKeys →
      (validatePRDAnswer detect sp spm assess answer questionId t).quality < 50 →
      (validatePRDAnswer detect sp spm assess answer questionId t).needsClarification = true
      ∧ (validatePRDAnswer detect sp spm assess answer questionId t).suggestion
        = some "adding undefined would help") := by
  constructor
  · intro detect sp spm assess answer questionId t h1 h0 h2
    simp only [List.mem_cons, List.not_mem_nil, or_false, not_or] at h1
    obtain ⟨hq1, hq2, hq3, hq4, hq5⟩ := h1
    have hq5row : suggestionsFor questionId
        = ["additional context", "constraints", "timeline considerations"] := by
      unfold suggestionsFor
      simp [hq1, hq2, hq3, hq4]
    unfold validatePRDAnswer at h2 ⊢
    simp only [] at h2 ⊢
    split at h2 <;> rename_i hover
    case isTrue =>
      simp only [if_pos hover]
      refine ⟨by simp, ?_⟩
      unfold generateFriendlySuggestion
      rw [if_neg h0, hq5row]
      by_cases hc :
          (optimize detect sp spm assess answer "prd"
            (some { phase := some "question-validation", documentType := none,
                    questionId := some questionId, intent := some "prd-generation" })
            t).quality.completeness < 40 <;>
        by_cases hs :
          (optimize detect sp spm assess answer "prd"
            (some { phase := some "question-validation", documentType := none,
                    questionId := some questionId, intent := some "prd-generation" })
            t).quality.specificity < 40
      · exact ⟨"timeline considerations", by decide, by simp [hc, hs]⟩
      · exact ⟨"constraints", by decide, by simp [hc, hs]⟩
      · exact ⟨"timeline considerations", by decide, by simp [hc, hs]⟩
      · exact ⟨"additional context", by decide, by simp [hc, hs]⟩
    case isFalse =>
      exact absurd h2 (by simpa using hover)
  · intro detect sp spm assess answer questionId t hp h2
    unfold validatePRDAnswer at h2 ⊢
    simp only [] at h2 ⊢
    split at h2 <;> rename_i hover
    case isTrue =>
      simp only [if_pos hover]
      exact ⟨by simp, by simp [generateFriendlySuggestion, hp]⟩
    case isFalse =>
      exact absurd h2 (by simpa using hover)

/-- C10 counterexample: `"toString"` is outside q1-q5, yet on a low-quality
answer the suggestion is `adding undefined would help` — the lookup returns
the truthy inherited `Object.prototype.toString`, the `|| suggestions.q5`
fallback never fires, and the result is not built from any q5 phrase as the
claim requires. -/
theorem validatePRDAnswer_proto_key_counterexample :
    "toString" ∉ (["q1", "q2", "q3", "q4", "q5"] : List String)
    ∧ "toString" ∈ objectPrototypeKeys
    ∧ (validatePRDAnswer detectStub selNone selModeNone assessLow "idk" "toString" 0).quality < 50
    ∧ (validatePRDAnswer detectStub selNone selModeNone assessLow "idk" "toString" 0).suggestion
        = some "adding undefined would help"
    ∧ ∀ detail,
        detail ∈ (["additional context", "constraints", "timeline considerations"] : List String) →
        some "adding undefined would help" ≠ some ("adding " ++ detail ++ " would help") :=
  ⟨by decide, by decide, by decide, rfl, by decide⟩

theorem validatePRDAnswer_unknown_question_fallback_witness :
    (("q9" ∉ (["q1", "q2", "q3", "q4", "q5"] : List String))
      ∧ ("q9" ∉ objectPrototypeKeys)
      ∧ (validatePRDAnswer detectStub selNone selModeNone assessLow "idk" "q9" 0).quality < 50
      ∧ ((validatePRDAnswer detectStub selNone selModeNone assessLow "idk" "q9" 0).needsClarification = true
        ∧ ∃ detail,
            detail ∈ (["additional context", "constraints", "timeline considerations"] : List String)
            ∧ (validatePRDAnswer detectStub selNone selModeNone assessLow "idk" "q9" 0).suggestion
              = some ("adding " ++ detail ++ " would help")))
    ∧ (("valueOf" ∈ objectPrototypeKeys)
      ∧ (validatePRDAnswer detectStub selNone selModeNone assessLow "idk" "valueOf" 0).quality < 50
      ∧ ((validatePRDAnswer detectStub selNone selModeNone assessLow "idk" "valueOf" 0).needsClarification = true
        ∧ (validatePRDAnswer detectStub selNone selModeNone assessLow "idk" "valueOf" 0).suggestion
          = some "adding undefined would help")) :=
  ⟨⟨by decide, by decide, by decide,
    validatePRDAnswer_unknown_question_fallback.1 detectStub selNone selModeNone assessLow
      "idk" "q9" 0 (by decide) (by decide) (by decide)⟩,
   ⟨by decide, by decide,
    validatePRDAnswer_unknown_question_fallback.2 detectStub selNone selModeNone assessLow
      "idk" "valueOf" 0 (by decide) (by decide)⟩⟩

/-- Closed form of `analyzeEscalation`: the sequential accumulation equals
the factor-table normal forms `escReasonsFn` / `escTotalFn`. -/
theorem analyzeEscalation_closed (aq : String → String → QualityScore)
    (r : OptimizationResult) :
    analyzeEscalation aq r =
      { shouldEscalate := decide (45 ≤
          escTotalFn r.original.length r.intent (aq r.original r.intent.primaryIntent)),
        escalationScore := min
          (escTotalFn r.original.length r.intent (aq r.original r.intent.primaryIntent)) 100,
        escalationConfidence := escConfidenceLabel
          (escTotalFn r.original.length r.intent (aq r.original r.intent.primaryIntent)),
        reasons := escReasonsFn r.original.length r.intent (aq r.original r.intent.primaryIntent),
        deepModeValue := generateDeepModeValue r
          (escReasonsFn r.original.length r.intent (aq r.original r.intent.primaryIntent)) } := by
  simp only [analyzeEscalation, escStep_fst, escStep_snd]
  unfold escTotalFn escReasonsFn escConfidenceLabel
  simp [List.append_assoc, Nat.add_assoc]

theorem firedContributions_sum (origLen : Nat) (intent : IntentAnalysis) (oq : QualityScore) :
    (firedContributions origLen intent oq).sum = escTotalFn origLen intent oq := by
  unfold firedContributions escTotalFn
  simp [List.sum_append, apply_ite List.sum]

theorem escReasonsFn_contributions (origLen : Nat) (intent : IntentAnalysis) (oq : QualityScore) :
    ((escReasonsFn origLen intent oq).map EscalationReason.contribution).sum
      = escTotalFn origLen intent oq := by
  unfold escReasonsFn escTotalFn
  simp [List.sum_append, List.map_append, apply_ite (List.map EscalationReason.contribution),
    apply_ite List.sum]

/-- C1: `analyzeEscalation` re-assesses the quality of `result.original`
(never the enhanced text) and scores it by the fixed factor table
(`firedContributions`): the contributions of the fired factors sum — uncapped
— to the total; the reported `escalationScore` is that total clamped to
[0,100] (in `Nat` every contribution is nonnegative, so `min · 100` is the
clamp); `shouldEscalate` holds exactly when the uncapped total is at least
45; and the confidence label is `high` iff the total is at least 75,
`medium` iff it is in [60,75), else `low`. -/
theorem analyzeEscalation_factor_table (aq : String → String → QualityScore)
    (r : OptimizationResult) :
    ((analyzeEscalation aq r).reasons.map EscalationReason.contribution).sum
        = (firedContributions r.original.length r.intent
            (aq r.original r.intent.primaryIntent)).sum
    ∧ (analyzeEscalation aq r).escalationScore
        = min (firedContributions r.original.length r.intent
            (aq r.original r.intent.primaryIntent)).sum 100
    ∧ ((analyzeEscalation aq r).shouldEscalate = true ↔
        45 ≤ (firedContributions r.original.length r.intent
            (aq r.original r.intent.primaryIntent)).sum)
    ∧ (analyzeEscalation aq r).escalationConfidence
        = escConfidenceLabel ((firedContributions r.original.length r.intent
            (aq r.original r.intent.primaryIntent)).sum) := by
  rw [analyzeEscalation_closed, firedContributions_sum]
  refine ⟨?_, rfl, ?_, rfl⟩
  · exact escReasonsFn_contributions r.original.length r.intent
      (aq r.original r.intent.primaryIntent)
  · simp

theorem escTotalFn_anti_completeness (L : Nat) (i : IntentAnalysis) (q q' : QualityScore)
    (hov : q'.overall = q.overall) (hsp : q'.specificity = q.specificity)
    (h : q'.completeness ≤ q.completeness) :
    escTotalFn L i q ≤ escTotalFn L i q' := by
  unfold escTotalFn
  rw [hov, hsp]
  by_cases h1 : q.completeness < 60 <;> by_cases h2 : q'.completeness < 60 <;>
    by_cases h3 : q.completeness < 70 <;> by_cases h4 : q'.completeness < 70 <;>
    by_cases h5 : L < 50 <;>
    simp [h1, h2, h3, h4, h5] <;> omega

theorem escTotalFn_anti_overall (L : Nat) (i : IntentAnalysis) (q q' : QualityScore)
    (hc : q'.completeness = q.completeness) (hsp : q'.specificity = q.specificity)
    (h : q'.overall ≤ q.overall) :
    escTotalFn L i q ≤ escTotalFn L i q' := by
  unfold escTotalFn lowQualityContribution
  rw [hc, hsp]
  by_cases h1 : q.overall < 65 <;> by_cases h2 : q'.overall < 65 <;>
    simp [h1, h2] <;> omega

theorem escTotalFn_anti_specificity (L : Nat) (i : IntentAnalysis) (q q' : QualityScore)
    (hov : q'.overall = q.overall) (hc : q'.completeness = q.completeness)
    (h : q'.specificity ≤ q.specificity) :
    escTotalFn L i q ≤ escTotalFn L i q' := by
  unfold escTotalFn
  rw [hov, hc]
  by_cases h1 : q.specificity < 60 <;> by_cases h2 : q'.specificity < 60 <;>
    simp [h1, h2] <;> try omega

theorem escTotalFn_anti_confidence (L : Nat) (i : IntentAnalysis) (q : QualityScore)
    (c' : Nat) (h : c' ≤ i.confidence) :
    escTotalFn L i q ≤ escTotalFn L { i with confidence := c' } q := by
  unfold escTotalFn lowConfContribution
  by_cases h1 : i.confidence < 60 <;> by_cases h2 : c' < 60 <;>
    simp [h1, h2] <;> omega

/-- C8: holding all other inputs of `analyzeEscalation` fixed, increasing
any single triggering condition's severity — lowering the original prompt's
assessed completeness, overall quality or specificity further, or lowering
the intent confidence further — never decreases the returned
`escalationScore`. -/
theorem analyzeEscalation_monotone :
    (∀ (aq aq' : String → String → QualityScore) (r : OptimizationResult),
      (aq' r.original r.intent.primaryIntent).overall
          = (aq r.original r.intent.primaryIntent).overall →
      (aq' r.original r.intent.primaryIntent).specificity
          = (aq r.original r.intent.primaryIntent).specificity →
      (aq' r.original r.intent.primaryIntent).completeness
          ≤ (aq r.original r.intent.primaryIntent).completeness →
      (analyzeEscalation aq r).escalationScore ≤ (analyzeEscalation aq' r).escalationScore)
    ∧ (∀ (aq aq' : String → String → QualityScore) (r : OptimizationResult),
      (aq' r.original r.intent.primaryIntent).completeness
          = (aq r.original r.intent.primaryIntent).completeness →
      (aq' r.original r.intent.primaryIntent).specificity
          = (aq r.original r.intent.primaryIntent).specificity →
      (aq' r.original r.intent.primaryIntent).overall
          ≤ (aq r.original r.intent.primaryIntent).overall →
      (analyzeEscalation aq r).escalationScore ≤ (analyzeEscalation aq' r).escalationScore)
    ∧ (∀ (aq aq' : String → String → QualityScore) (r : OptimizationResult),
      (aq' r.original r.intent.primaryIntent).overall
          = (aq r.original r.intent.primaryIntent).overall →
      (aq' r.original r.intent.primaryIntent).completeness
          = (aq r.original r.intent.primaryIntent).completeness →
      (aq' r.original r.intent.primaryIntent).specificity
          ≤ (aq r.original r.intent.primaryIntent).specificity →
      (analyzeEscalation aq r).escalationScore ≤ (analyzeEscalation aq' r).escalationScore)
    ∧ (∀ (aq : String → String → QualityScore) (r : OptimizationResult) (c' : Nat),
      c' ≤ r.intent.confidence →
      (analyzeEscalation aq r).escalationScore
        ≤ (analyzeEscalation aq
            { r with intent := { r.intent with confidence := c' } }).escalationScore) := by
  refine ⟨?_, ?_, ?_, ?_⟩
  · intro aq aq' r hov hsp hcomp
    rw [analyzeEscalation_closed, analyzeEscalation_closed]
    exact min_le_min (escTotalFn_anti_completeness _ _ _ _ hov hsp hcomp) (le_refl 100)
  · intro aq aq' r hcomp hsp hov
    rw [analyzeEscalation_closed, analyzeEscalation_closed]
    exact min_le_min (escTotalFn_anti_overall _ _ _ _ hcomp hsp hov) (le_refl 100)
  · intro aq aq' r hov hcomp hsp
    rw [analyzeEscalation_closed, analyzeEscalation_closed]
    exact min_le_min (escTotalFn_anti_specificity _ _ _ _ hov hcomp hsp) (le_refl 100)
  · intro aq r c' hconf
    rw [analyzeEscalation_closed, analyzeEscalation_closed]
    simp only []
    exact min_le_min (escTotalFn_anti_confidence _ _ _ _ hconf) (le_refl 100)

theorem analyzeEscalation_monotone_witness :
    ((aqConst ⟨60, 60, 60, 30, 60, 60, 60⟩) resultStub.original
        resultStub.intent.primaryIntent).overall
      = ((aqConst (qualityAll 60)) resultStub.original
        resultStub.intent.primaryIntent).overall
    ∧ ((aqConst ⟨60, 60, 60, 30, 60, 60, 60⟩) resultStub.original
        resultStub.intent.primaryIntent).specificity
      = ((aqConst (qualityAll 60)) resultStub.original
        resultStub.intent.primaryIntent).specificity
    ∧ ((aqConst ⟨60, 60, 60, 30, 60, 60, 60⟩) resultStub.original
        resultStub.intent.primaryIntent).completeness
      ≤ ((aqConst (qualityAll 60)) resultStub.original
        resultStub.intent.primaryIntent).completeness
    ∧ (analyzeEscalation (aqConst (qualityAll 60)) resultStub).escalationScore
      ≤ (analyzeEscalation (aqConst ⟨60, 60, 60, 30, 60, 60, 60⟩) resultStub).escalationScore :=
  ⟨rfl, rfl, by decide,
    analyzeEscalation_monotone.1 (aqConst (qualityAll 60))
      (aqConst ⟨60, 60, 60, 30, 60, 60, 60⟩) resultStub rfl rfl (by decide)⟩

/-- C4: for each concrete pattern, whenever its applicability check is
false the pattern reports `applied = false` and returns its input exactly
unchanged.  The checks are the source predicates: ConversationSummarizer is
inapplicable on already-structured or non-conversational content,
RequirementPrioritizer without feature content or with existing
prioritization, UserPersonaEnricher with existing user context or without
feature content, ImplicitRequirementExtractor with no detected implicit
requirement, TopicCoherenceAnalyzer with at most one topic or existing
topic headers — for every implementation of the BasePattern helpers. -/
theorem patterns_inapplicable_identity :
    (∀ (es : String → List String) (T : String),
      isAlreadyStructured T = true ∨ isConversationalContent es T = false →
      (applyConversationSummarizer es T).applied = false
        ∧ (applyConversationSummarizer es T).enhancedPrompt = T)
    ∧ (∀ (hs : String → List String → Bool) (efs : String → Option String) (T : String),
      hasFeatureContentRP hs T = false ∨ hasPrioritization hs T = true →
      (applyRequirementPrioritizer hs efs T).applied = false
        ∧ (applyRequirementPrioritizer hs efs T).enhancedPrompt = T)
    ∧ (∀ (hs : String → List String → Bool) (T : String),
      hasUserContext hs T = true ∨ needsUserContext hs T = false →
      (applyUserPersonaEnricher hs T).applied = false
        ∧ (applyUserPersonaEnricher hs T).enhancedPrompt = T)
    ∧ (∀ T : String,
      extractImplicitRequirements T = [] →
      (applyImplicitRequirementExtractor T).applied = false
        ∧ (applyImplicitRequirementExtractor T).enhancedPrompt = T)
    ∧ (∀ (es : String → List String) (T : String),
      (detectTopics T).length ≤ 1 ∨ hasTopicOrganization T = true →
      (applyTopicCoherenceAnalyzer es T).applied = false
        ∧ (applyTopicCoherenceAnalyzer es T).enhancedPrompt = T) := by
  refine ⟨?_, ?_, ?_, ?_, ?_⟩
  · intro es T h
    rcases h with h | h
    · simp [applyConversationSummarizer, h]
    · by_cases h1 : isAlreadyStructured T <;> simp [applyConversationSummarizer, h1, h]
  · intro hs efs T h
    rcases h with h | h
    · simp [applyRequirementPrioritizer, h]
    · by_cases h1 : hasFeatureContentRP hs T <;> simp [applyRequirementPrioritizer, h1, h]
  · intro hs T h
    rcases h with h | h
    · simp [applyUserPersonaEnricher, h]
    · by_cases h1 : hasUserContext hs T <;> simp [applyUserPersonaEnricher, h1, h]
  · intro T h
    simp [applyImplicitRequirementExtractor, h]
  · intro es T h
    rcases h with h | h
    · simp [applyTopicCoherenceAnalyzer, h]
    · by_cases h1 : (detectTopics T).length ≤ 1 <;> simp [applyTopicCoherenceAnalyzer, h1, h]

theorem patterns_inapplicable_identity_witness :
    (isConversationalContent esNil "" = false
      ∧ (applyConversationSummarizer esNil "").applied = false
      ∧ (applyConversationSummarizer esNil "").enhancedPrompt = "")
    ∧ (hasFeatureContentRP hsNever "" = false
      ∧ (applyRequirementPrioritizer hsNever efsNone "").applied = false
      ∧ (applyRequirementPrioritizer hsNever efsNone "").enhancedPrompt = "")
    ∧ (needsUserContext hsNever "" = false
      ∧ (applyUserPersonaEnricher hsNever "").applied = false
      ∧ (applyUserPersonaEnricher hsNever "").enhancedPrompt = "")
    ∧ (extractImplicitRequirements "" = []
      ∧ (applyImplicitRequirementExtractor "").applied = false
      ∧ (applyImplicitRequirementExtractor "").enhancedPrompt = "")
    ∧ ((detectTopics "").length ≤ 1
      ∧ (applyTopicCoherenceAnalyzer esNil "").applied = false
      ∧ (applyTopicCoherenceAnalyzer esNil "").enhancedPrompt = "") :=
  ⟨⟨by decide,
    (patterns_inapplicable_identity.1 esNil "" (Or.inr (by decide))).1,
    (patterns_inapplicable_identity.1 esNil "" (Or.inr (by decide))).2⟩,
   ⟨by decide,
    (patterns_inapplicable_identity.2.1 hsNever efsNone "" (Or.inl (by decide))).1,
    (patterns_inapplicable_identity.2.1 hsNever efsNone "" (Or.inl (by decide))).2⟩,
   ⟨by decide,
    (patterns_inapplicable_identity.2.2.1 hsNever "" (Or.inr (by decide))).1,
    (patterns_inapplicable_identity.2.2.1 hsNever "" (Or.inr (by decide))).2⟩,
   ⟨by decide,
    (patterns_inapplicable_identity.2.2.2.1 "" (by decide)).1,
    (patterns_inapplicable_identity.2.2.2.1 "" (by decide)).2⟩,
   ⟨by decide,
    (patterns_inapplicable_identity.2.2.2.2 esNil "" (Or.inl (by decide))).1,
    (patterns_inapplicable_identity.2.2.2.2 esNil "" (Or.inl (by decide))).2⟩⟩

/-- C5: whenever a pattern applies, the full input text survives verbatim
inside the enhanced output: the appending patterns (RequirementPrioritizer,
UserPersonaEnricher, ImplicitRequirementExtractor) return the input followed
by an appended section, and the restructuring patterns place the full input
beneath their `**Original Context:**` / `**Full Context:**` marker. -/
theorem patterns_preserve_input :
    (∀ (es : String → List String) (T : String),
      (applyConversationSummarizer es T).applied = true →
      ∃ pre, (applyConversationSummarizer es T).enhancedPrompt
        = pre ++ ("---\n\n**Original Context:**\n" ++ T))
    ∧ (∀ (hs : String → List String → Bool) (efs : String → Option String) (T : String),
      (applyRequirementPrioritizer hs efs T).applied = true →
      ∃ post, (applyRequirementPrioritizer hs efs T).enhancedPrompt = T ++ post)
    ∧ (∀ (hs : String → List String → Bool) (T : String),
      (applyUserPersonaEnricher hs T).applied = true →
      ∃ post, (applyUserPersonaEnricher hs T).enhancedPrompt = T ++ post)
    ∧ (∀ T : String,
      (applyImplicitRequirementExtractor T).applied = true →
      ∃ post, (applyImplicitRequirementExtractor T).enhancedPrompt = T ++ post)
    ∧ (∀ (es : String → List String) (T : String),
      (applyTopicCoherenceAnalyzer es T).applied = true →
      ∃ pre, (applyTopicCoherenceAnalyzer es T).enhancedPrompt
        = pre ++ ("---\n\n**Full Context:**\n" ++ T)) := by
  refine ⟨?_, ?_, ?_, ?_, ?_⟩
  · intro es T h
    by_cases h1 : isAlreadyStructured T
    · simp [applyConversationSummarizer, h1] at h
    · by_cases h2 : isConversationalContent es T
      · have he : (applyConversationSummarizer es T).enhancedPrompt
            = extractAndStructure es T := by
          simp [applyConversationSummarizer, h1, h2]
        rw [he]
        exact ⟨_, rfl⟩
      · simp [applyConversationSummarizer, h1, h2] at h
  · intro hs efs T h
    by_cases h1 : hasFeatureContentRP hs T
    · by_cases h2 : hasPrioritization hs T
      · simp [applyRequirementPrioritizer, h1, h2] at h
      · have he : (applyRequirementPrioritizer hs efs T).enhancedPrompt
            = addPrioritization efs T := by
          simp [applyRequirementPrioritizer, h1, h2]
        rw [he]
        unfold addPrioritization
        cases efs T
        · exact ⟨_, rfl⟩
        · exact ⟨_, rfl⟩
    · simp [applyRequirementPrioritizer, h1] at h
  · intro hs T h
    by_cases h1 : hasUserContext hs T
    · simp [applyUserPersonaEnricher, h1] at h
    · by_cases h2 : needsUserContext hs T
      · have he : (applyUserPersonaEnricher hs T).enhancedPrompt = addUserPersona T := by
          simp [applyUserPersonaEnricher, h1, h2]
        rw [he]
        exact ⟨_, rfl⟩
      · simp [applyUserPersonaEnricher, h1, h2] at h
  · intro T h
    by_cases h1 : (extractImplicitRequirements T).length = 0
    · simp [applyImplicitRequirementExtractor, h1] at h
    · have he : (applyImplicitRequirementExtractor T).enhancedPrompt
          = addImplicitRequirements T (extractImplicitRequirements T) := by
        simp [applyImplicitRequirementExtractor, h1]
      rw [he]
      exact ⟨_, rfl⟩
  · intro es T h
    by_cases h1 : (detectTopics T).length ≤ 1
    · simp [applyTopicCoherenceAnalyzer, h1] at h
    · by_cases h2 : hasTopicOrganization T
      · simp [applyTopicCoherenceAnalyzer, h1, h2] at h
      · have he : (applyTopicCoherenceAnalyzer es T).enhancedPrompt
            = organizeByTopic es T (detectTopics T) := by
          simp [applyTopicCoherenceAnalyzer, h1, h2]
        rw [he]
        exact ⟨_, rfl⟩

theorem patterns_preserve_input_witness :
    ((applyConversationSummarizer esNil "i want x. i need y.").applied = true
      ∧ ∃ pre, (applyConversationSummarizer esNil "i want x. i need y.").enhancedPrompt
          = pre ++ ("---\n\n**Original Context:**\n" ++ "i want x. i need y."))
    ∧ ((applyRequirementPrioritizer hsFeatureOnly efsNone "x").applied = true
      ∧ ∃ post, (applyRequirementPrioritizer hsFeatureOnly efsNone "x").enhancedPrompt
          = "x" ++ post)
    ∧ ((applyUserPersonaEnricher hsBuildOnly "x").applied = true
      ∧ ∃ post, (applyUserPersonaEnricher hsBuildOnly "x").enhancedPrompt = "x" ++ post)
    ∧ ((applyImplicitRequirementExtractor "mobile").applied = true
      ∧ ∃ post, (applyImplicitRequirementExtractor "mobile").enhancedPrompt = "mobile" ++ post)
    ∧ ((applyTopicCoherenceAnalyzer esNil "api database").applied = true
      ∧ ∃ pre, (applyTopicCoherenceAnalyzer esNil "api database").enhancedPrompt
          = pre ++ ("---\n\n**Full Context:**\n" ++ "api database")) :=
  ⟨⟨by decide, patterns_preserve_input.1 esNil "i want x. i need y." (by decide)⟩,
   ⟨by decide, patterns_preserve_input.2.1 hsFeatureOnly efsNone "x" (by decide)⟩,
   ⟨by decide, patterns_preserve_input.2.2.1 hsBuildOnly "x" (by decide)⟩,
   ⟨by decide, patterns_preserve_input.2.2.2.1 "mobile" (by decide)⟩,
   ⟨by decide, patterns_preserve_input.2.2.2.2 esNil "api database" (by decide)⟩⟩

theorem pushClean_nodup (acc : List String) (c : String) (h : acc.Nodup) :
    (pushClean acc c).Nodup := by
  simp only [pushClean]
  split
  · rename_i hc
    refine List.Nodup.append h (List.nodup_singleton _) ?_
    intro a ha hb
    simp only [List.mem_singleton] at hb
    subst hb
    exact hc.2 ha
  · exact h

theorem pushClean_mem (acc : List String) (c x : String) (h : x ∈ pushClean acc c) :
    x ∈ acc ∨ Cleanish x := by
  simp only [pushClean] at h
  split at h
  · rename_i hc
    rcases List.mem_append.mp h with h' | h'
    · exact Or.inl h'
    · simp only [List.mem_singleton] at h'
      subst h'
      exact Or.inr ⟨⟨c, rfl⟩, hc.1⟩
  · exact Or.inl h

theorem foldl_preserves_nodup {α : Type} (f : List String → α → List String)
    (h1 : ∀ acc y, acc.Nodup → (f acc y).Nodup) :
    ∀ (l : List α) (acc : List String), acc.Nodup → (l.foldl f acc).Nodup := by
  intro l
  induction l with
  | nil => intro acc h; exact h
  | cons y t ih => intro acc h; exact ih (f acc y) (h1 acc y h)

theorem foldl_mem_cleanish {α : Type} (f : List String → α → List String)
    (h2 : ∀ acc y x, x ∈ f acc y → x ∈ acc ∨ Cleanish x) :
    ∀ (l : List α) (acc : List String) (x : String),
      x ∈ l.foldl f acc → x ∈ acc ∨ Cleanish x := by
  intro l
  induction l with
  | nil => intro acc x h; exact Or.inl h
  | cons y t ih =>
    intro acc x h
    rcases ih (f acc y) x h with h' | h'
    · exact h2 acc y x h'
    · exact Or.inr h'

theorem capturesFold_nodup (caps : List String) (acc : List String) (h : acc.Nodup) :
    (caps.foldl pushClean acc).Nodup :=
  foldl_preserves_nodup pushClean (fun acc c h => pushClean_nodup acc c h) caps acc h

theorem capturesFold_mem (caps : List String) (acc : List String) (x : String)
    (h : x ∈ caps.foldl pushClean acc) : x ∈ acc ∨ Cleanish x :=
  foldl_mem_cleanish pushClean (fun acc c x h => pushClean_mem acc c x h) caps acc x h

theorem cleanRequirement_length (t : String) : (cleanRequirement t).length ≤ 200 := by
  unfold cleanRequirement
  have h : ((collapseWs (stripTrailingPunct (trimList t.toList))).take 200).length ≤ 200 := by
    simp [List.length_take]
  simp only [String.length]
  exact h

theorem forall_mem_append_singleton {P : String → Prop} {l : List String} {lit : String}
    (hl : ∀ x, x ∈ l → P x) (hlit : P lit) : ∀ x, x ∈ l ++ [lit] → P x := by
  intro x hx
  rcases List.mem_append.mp hx with h | h
  · exact hl x h
  · simp only [List.mem_singleton] at h
    subst h
    exact hlit

theorem forall_mem_ite_append {P : String → Prop} (c : Prop) [Decidable c]
    {l : List String} {lit : String}
    (hl : ∀ x, x ∈ l → P x) (hlit : P lit) :
    ∀ x, x ∈ (if c then l ++ [lit] else l) → P x := by
  split_ifs
  · exact forall_mem_append_singleton hl hlit
  · exact hl

theorem constraintMatches_nodup (prompt : String) : (constraintMatches prompt).Nodup := by
  unfold constraintMatches
  refine foldl_preserves_nodup _ ?_ _ [] List.nodup_nil
  intro acc pat h
  exact capturesFold_nodup _ acc h

theorem constraintMatches_mem (prompt x : String) (h : x ∈ constraintMatches prompt) :
    Cleanish x := by
  unfold constraintMatches at h
  rcases foldl_mem_cleanish _ (fun acc pat x h => capturesFold_mem _ acc x h) _ [] x h with
    h' | h'
  · simp at h'
  · exact h'

/-- C7 (amended): when ConversationSummarizer extracts its lists, the caps
are Requirements ≤ 10, Constraints ≤ 5 and Goals ≤ 3 (the spec's sentence
attaches 10/5/3 to Goals/Requirements/Constraints in that order, but the
source caps requirements at 10, constraints at 5 and goals at 3);
requirements, goals and the regex-extracted constraints are deduplicated and
every such item is cleaned (trimmed, trailing punctuation stripped,
whitespace collapsed, truncated to 200 characters — every list entry is an
output of `cleanRequirement` and is at most 200 characters long).  The three
keyword-triggered hardcoded constraints, however, are appended without a
duplicate check, so the final constraints list need not be duplicate-free. -/
theorem conversationSummarizer_extraction_spec :
    ∀ (es : String → List String) (prompt : String),
      ((extractRequirements es prompt).length ≤ 10
        ∧ (extractRequirements es prompt).Nodup
        ∧ ∀ x, x ∈ extractRequirements es prompt → Cleanish x)
      ∧ ((extractConstraints prompt).length ≤ 5
        ∧ (constraintMatches prompt).Nodup
        ∧ ∀ x, x ∈ extractConstraints prompt → (∃ raw, x = cleanRequirement raw) ∧ x.length ≤ 200)
      ∧ ((extractGoals prompt).length ≤ 3
        ∧ (extractGoals prompt).Nodup
        ∧ ∀ x, x ∈ extractGoals prompt → Cleanish x) := by
  intro es prompt
  have hreqStep : ∀ (sentence : String) (acc : List String), acc.Nodup →
      (requirementPatterns.foldl
        (fun acc pat => match firstCaptureP pat sentence with
          | some c => pushClean acc c
          | none => acc) acc).Nodup := by
    intro sentence acc h
    refine foldl_preserves_nodup _ ?_ _ acc h
    intro acc' pat h'
    cases hfc : firstCaptureP pat sentence with
    | none => simpa [hfc] using h'
    | some c => simp only [hfc]; exact pushClean_nodup acc' c h'
  have hreqStepMem : ∀ (sentence : String) (acc : List String) (x : String),
      x ∈ (requirementPatterns.foldl
        (fun acc pat => match firstCaptureP pat sentence with
          | some c => pushClean acc c
          | none => acc) acc) → x ∈ acc ∨ Cleanish x := by
    intro sentence acc x hx
    refine foldl_mem_cleanish _ ?_ _ acc x hx
    intro acc' pat x' hx'
    cases hfc : firstCaptureP pat sentence with
    | none => rw [hfc] at hx'; exact Or.inl hx'
    | some c => rw [hfc] at hx'; exact pushClean_mem acc' c x' hx'
  have hlit1 : Cleanish "Performance requirements to be defined" :=
    ⟨⟨"Performance requirements to be defined", by decide⟩, by decide⟩
  have hlit2 : Cleanish "Security requirements to be defined" :=
    ⟨⟨"Security requirements to be defined", by decide⟩, by decide⟩
  have hlit3 : Cleanish "Must work on both mobile and desktop" :=
    ⟨⟨"Must work on both mobile and desktop", by decide⟩, by decide⟩
  refine ⟨⟨?_, ?_, ?_⟩, ⟨?_, constraintMatches_nodup prompt, ?_⟩, ⟨?_, ?_, ?_⟩⟩
  · unfold extractRequirements
    simp [List.length_take]
  · unfold extractRequirements
    refine List.Nodup.sublist (List.take_sublist _ _) ?_
    exact foldl_preserves_nodup _ (fun acc y h => hreqStep y acc h) _ [] List.nodup_nil
  · intro x hx
    unfold extractRequirements at hx
    have hx' := List.take_subset _ _ hx
    rcases foldl_mem_cleanish _ (fun acc y x h => hreqStepMem y acc x h) _ [] x hx' with
      h | h
    · simp at h
    · exact h
  · unfold extractConstraints
    simp [List.length_take]
  · intro x hx
    have hclean : ∀ y : String, Cleanish y → (∃ raw, y = cleanRequirement raw) ∧ y.length ≤ 200 := by
      intro y hy
      rcases hy with ⟨⟨raw, hraw⟩, _⟩
      exact ⟨⟨raw, hraw⟩, by rw [hraw]; exact cleanRequirement_length raw⟩
    have hbase : ∀ y, y ∈ constraintMatches prompt →
        (∃ raw, y = cleanRequirement raw) ∧ y.length ≤ 200 :=
      fun y h => hclean y (constraintMatches_mem prompt y h)
    unfold extractConstraints at hx
    exact forall_mem_ite_append _
      (forall_mem_ite_append _
        (forall_mem_ite_append _ hbase (hclean _ hlit1)) (hclean _ hlit2))
      (hclean _ hlit3) x (List.take_subset _ _ hx)
  · unfold extractGoals
    simp [List.length_take]
  · unfold extractGoals
    refine List.Nodup.sublist (List.take_sublist _ _) ?_
    refine foldl_preserves_nodup _ ?_ _ [] List.nodup_nil
    intro acc pat h
    exact capturesFold_nodup _ acc h
  · intro x hx
    unfold extractGoals at hx
    have hx' := List.take_subset _ _ hx
    rcases foldl_mem_cleanish _ (fun acc pat x h => capturesFold_mem _ acc x h) _ [] x hx' with
      h | h
    · simp at h
    · exact h

/-- C7 counterexample: on `capCounterPrompt` the summarizer applies and its
constraints list has four entries — more than the cap of 3 the claim assigns
to constraints; on `dupConstraintPrompt` the summarizer applies and the
constraints list contains the same constraint twice, so it is not
deduplicated. -/
theorem conversationSummarizer_caps_counterexample :
    ((applyConversationSummarizer esNil capCounterPrompt).applied = true
      ∧ extractConstraints capCounterPrompt = ["use java", "use php", "use perl", "use cobol"]
      ∧ 3 < (extractConstraints capCounterPrompt).length)
    ∧ ((applyConversationSummarizer esNil dupConstraintPrompt).applied = true
      ∧ extractConstraints dupConstraintPrompt
          = ["Performance requirements to be defined", "Performance requirements to be defined"]
      ∧ ¬ (extractConstraints dupConstraintPrompt).Nodup) :=
  ⟨⟨by decide, by decide, by decide⟩, ⟨by decide, by decide, by decide⟩⟩

theorem conversationSummarizer_extraction_spec_witness :
    "use java" ∈ extractConstraints "we can\x27t use java"
    ∧ ((∃ raw, "use java" = cleanRequirement raw) ∧ ("use java" : String).length ≤ 200)
    ∧ (extractConstraints "we can\x27t use java").length ≤ 5
    ∧ (extractRequirements esNil "we can\x27t use java").length ≤ 10
    ∧ (extractGoals "we can\x27t use java").length ≤ 3 :=
  ⟨by decide,
   (conversationSummarizer_extraction_spec esNil "we can\x27t use java").2.1.2.2
     "use java" (by decide),
   (conversationSummarizer_extraction_spec esNil "we can\x27t use java").2.1.1,
   (conversationSummarizer_extraction_spec esNil "we can\x27t use java").1.1,
   (conversationSummarizer_extraction_spec esNil "we can\x27t use java").2.2.1⟩

end Clavix
